import Mathlib

/-!
Verification of the `gemini_rag` Streamlit client (`src/app.py`).

The program is a sequential HTTP orchestrator: a sidebar "Submit Parameters"
button triggers a health check followed by a parameter-configuration call,
and a main-page "Execute Query" button triggers optional keyword
registration, a query call, and optional history retrieval.

The embedding models HTTP interaction with a deterministic oracle
(`Oracle : Request → HttpOutcome`), and every observable effect of the
program (network calls, `st.error`, `st.success`, `st.write`-style output)
as an event trace.  Each Python helper function becomes a Lean function
returning its result together with the events it emits; `main` becomes
`scriptRun` (one Streamlit script execution over the current widget state
and session state), and `session` folds script runs to model a sequence of
user interactions.
-/

namespace GeminiRag

/-- JSON values, as produced/consumed by the `requests` calls.  Numbers are
modelled as rationals (enough for the temperature float and the int
parameters). -/
inductive Json where
  | null
  | bool (b : Bool)
  | num (q : Rat)
  | str (s : String)
  | arr (xs : List Json)
  | obj (fields : List (String × Json))

/-- Python truthiness of a JSON value (`if health_status:` etc.):
`None`, `False`, `0`, `""`, `[]`, `{}` are falsy. -/
def Json.truthy : Json → Bool
  | .null => false
  | .bool b => b
  | .num q => decide (q ≠ 0)
  | .str s => !s.isEmpty
  | .arr xs => !xs.isEmpty
  | .obj fs => !fs.isEmpty

/-- `d.get(key, default)` on a JSON object (first binding of the key).
The claims only apply it to object-shaped responses. -/
def Json.getD (j : Json) (key : String) (d : Json) : Json :=
  match j with
  | .obj fs =>
    match fs.find? (fun p => p.1 == key) with
    | some p => p.2
    | none => d
  | _ => d

/-- Elements of a JSON array (the rendering loops iterate over arrays). -/
def Json.asArr : Json → List Json
  | .arr xs => xs
  | _ => []

/-- `str()` of a JSON value as interpolated into an f-string.  The claims
only display scalar fields, so container rendering is abbreviated. -/
def Json.display : Json → String
  | .null => "None"
  | .bool b => if b then "True" else "False"
  | .num q => toString q
  | .str s => s
  | .arr _ => "[...]"
  | .obj _ => "{...}"

/-- Python truthiness of an optional JSON result (`None` is falsy). -/
def pyTruthyOpt : Option Json → Bool
  | none => false
  | some j => j.truthy

/-- Python truthiness of the optional `history_limit` int
(`None` and `0` are falsy). -/
def natOptTruthy : Option Nat → Bool
  | none => false
  | some n => n != 0

/-- The five endpoints of the consumed HTTP contract. -/
inductive Endpoint where
  | health
  | addKeywords
  | setParameters
  | queryWithDetails
  | conversationHistory
deriving DecidableEq

inductive Method where
  | get
  | post
deriving DecidableEq

/-- One HTTP request as issued by `requests.get`/`requests.post`:
the URL string exactly as the code builds it, the `json=` body, the
`params=` query parameters, and the `timeout=` in seconds.  `ep` tags
which endpoint the request addresses. -/
structure Request where
  method : Method
  ep : Endpoint
  url : String
  body : Option Json
  queryParams : List (String × String)
  timeout : Nat

/-- The error taxonomy: `requests.exceptions.RequestException` cases the
code can observe (connection errors, timeouts, and `raise_for_status` on a
non-2xx response). -/
inductive ErrKind where
  | networkError
  | timeoutError
  | httpStatusError (code : Nat)
deriving DecidableEq

/-- The exception text interpolated into the `st.error` message. -/
def ErrKind.msg : ErrKind → String
  | .networkError => "ConnectionError"
  | .timeoutError => "ReadTimeout"
  | .httpStatusError c => "HTTPError " ++ toString c

/-- Outcome of issuing a request: a 2xx response with a parsed JSON body,
or a `RequestException`. -/
inductive HttpOutcome where
  | success (body : Json)
  | failure (e : ErrKind)

/-- The remote RAG service, modelled as a deterministic response function. -/
def Oracle := Request → HttpOutcome

/-- Observable events of one program execution, in order: network calls,
`st.error` messages, `st.success`/`st.sidebar.success` messages, and
rendered text (`st.write`, `st.title`, `st.header`, `st.subheader`,
`st.info`). -/
inductive Event where
  | call (r : Request)
  | errorMsg (s : String)
  | successMsg (s : String)
  | write (s : String)

/-- The network calls recorded in an event trace, in order. -/
def callsOf (evs : List Event) : List Request :=
  evs.filterMap fun e =>
    match e with
    | .call r => some r
    | _ => none

/-- Number of `st.error` messages in a trace. -/
def errorCount (evs : List Event) : Nat :=
  evs.countP fun e =>
    match e with
    | .errorMsg _ => true
    | _ => false

/-- Number of success messages in a trace. -/
def successCount (evs : List Event) : Nat :=
  evs.countP fun e =>
    match e with
    | .successMsg _ => true
    | _ => false

/-- Number of recorded calls whose outcome under oracle `o` is a failure. -/
def failedCallCount (o : Oracle) (evs : List Event) : Nat :=
  (callsOf evs).countP fun r =>
    match o r with
    | .failure _ => true
    | _ => false

/-! ## The five stage functions of `src/app.py` -/

/-- The request issued by `check_api_health`:
`requests.get(f"{base_url}/health", timeout=30)`. -/
def healthReq (base_url : String) : Request :=
  { method := .get, ep := .health, url := base_url ++ "/health",
    body := none, queryParams := [], timeout := 30 }

/-- `check_api_health(base_url)`: GET `/health`, `raise_for_status`, return
the JSON on success; on any `RequestException` emit one `st.error` and
return `None`. -/
def check_api_health (o : Oracle) (base_url : String) :
    Option Json × List Event :=
  match o (healthReq base_url) with
  | .success j => (some j, [.call (healthReq base_url)])
  | .failure e =>
    (none, [.call (healthReq base_url),
            .errorMsg ("API Health Check failed: " ++ e.msg)])

/-- The parameter dictionary stored in `st.session_state.submitted_params`. -/
structure SubmittedParams where
  base_url : String
  temperature : Rat
  k : Nat
  chunk_overlap : Nat
  index_type : String
  rerank_k : Option Nat
deriving DecidableEq

/-- The JSON body `set_api_parameters` posts. -/
def paramsBody (p : SubmittedParams) : Json :=
  .obj [("temperature", .num p.temperature),
        ("k", .num p.k),
        ("chunk_overlap", .num p.chunk_overlap),
        ("rerank_k", match p.rerank_k with
                     | some n => .num n
                     | none => .null),
        ("index_type", .str p.index_type)]

/-- The request issued by `set_api_parameters`: POST `/set-parameters`
with the parameter body and `timeout=240`. -/
def setParamsReq (base_url : String) (p : SubmittedParams) : Request :=
  { method := .post, ep := .setParameters,
    url := base_url ++ "/set-parameters",
    body := some (paramsBody p), queryParams := [], timeout := 240 }

/-- `set_api_parameters(base_url, params)`: a single POST with
`timeout=240`; on any `RequestException` emit one `st.error` and return
`None`. -/
def set_api_parameters (o : Oracle) (base_url : String)
    (params : SubmittedParams) : Option Json × List Event :=
  match o (setParamsReq base_url params) with
  | .success j => (some j, [.call (setParamsReq base_url params)])
  | .failure e =>
    (none, [.call (setParamsReq base_url params),
            .errorMsg ("Failed to set parameters: " ++ e.msg)])

/-- The request issued by `add_manual_keywords`: POST `/add-keywords` with
body `{"keywords": [...]}` and `timeout=30`. -/
def addKeywordsReq (base_url : String) (keywords : List String) : Request :=
  { method := .post, ep := .addKeywords,
    url := base_url ++ "/add-keywords",
    body := some (.obj [("keywords", .arr (keywords.map .str))]),
    queryParams := [], timeout := 30 }

/-- `add_manual_keywords(base_url, keywords)`: `if not keywords: return
None` (no call); otherwise one POST; on failure one `st.error` and
`None`. -/
def add_manual_keywords (o : Oracle) (base_url : String)
    (keywords : List String) : Option Json × List Event :=
  if keywords.isEmpty then (none, [])
  else
    match o (addKeywordsReq base_url keywords) with
    | .success j => (some j, [.call (addKeywordsReq base_url keywords)])
    | .failure e =>
      (none, [.call (addKeywordsReq base_url keywords),
              .errorMsg ("Failed to add keywords: " ++ e.msg)])

/-- The request issued by `query_rag_api`: POST `/query-with-details` with
query parameters `query` and, iff `history_limit` is truthy,
`history_context_limit`; `timeout=240`. -/
def queryReq (base_url user_query : String) (history_limit : Option Nat) :
    Request :=
  { method := .post, ep := .queryWithDetails,
    url := base_url ++ "/query-with-details",
    body := none,
    queryParams :=
      ("query", user_query) ::
        (if natOptTruthy history_limit then
          [("history_context_limit", toString (history_limit.getD 0))]
        else []),
    timeout := 240 }

/-- `query_rag_api(base_url, user_query, manual_keywords, history_limit)`:
the `manual_keywords` argument is accepted but never used.  One POST; on
failure one `st.error` and `None`. -/
def query_rag_api (o : Oracle) (base_url user_query : String)
    (manual_keywords : List String) (history_limit : Option Nat) :
    Option Json × List Event :=
  match o (queryReq base_url user_query history_limit) with
  | .success j => (some j, [.call (queryReq base_url user_query history_limit)])
  | .failure e =>
    (none, [.call (queryReq base_url user_query history_limit),
            .errorMsg ("Query failed: " ++ e.msg)])

/-- The request issued by `get_conversation_history`: GET
`f"{base_url}/conversation-history?limit={history_limit}"`, `timeout=30`. -/
def historyReq (base_url : String) (limit : Nat) : Request :=
  { method := .get, ep := .conversationHistory,
    url := base_url ++ "/conversation-history?limit=" ++ toString limit,
    body := none, queryParams := [], timeout := 30 }

/-- `get_conversation_history(base_url, history_limit)`: `if not
history_limit: return None` (no call); otherwise one GET; on failure one
`st.error` and `None`. -/
def get_conversation_history (o : Oracle) (base_url : String)
    (history_limit : Option Nat) : Option Json × List Event :=
  if !natOptTruthy history_limit then (none, [])
  else
    match o (historyReq base_url (history_limit.getD 0)) with
    | .success j => (some j, [.call (historyReq base_url (history_limit.getD 0))])
    | .failure e =>
      (none, [.call (historyReq base_url (history_limit.getD 0)),
              .errorMsg ("Failed to retrieve conversation history: " ++ e.msg)])

/-! ## Rendering (the `st.write` blocks of `main`) -/

/-- Rendering of one retrieved document at (1-based) position `i`:
`doc.get('source', 'Unknown')` and `doc.get('content_preview', 'No
preview')`. -/
def renderDoc (i : Nat) (doc : Json) : List Event :=
  [.write ("**Document " ++ toString i ++ ":**"),
   .write ("Source: " ++ (doc.getD "source" (.str "Unknown")).display),
   .write ("Content Preview: " ++
     (doc.getD "content_preview" (.str "No preview")).display)]

/-- `for i, doc in enumerate(..., 1)` starting at index `i`. -/
def renderDocs (i : Nat) : List Json → List Event
  | [] => []
  | d :: ds => renderDoc i d ++ renderDocs (i + 1) ds

/-- Rendering of a truthy query result: answer (fallback `'No answer'`)
then the retrieved documents, 1-indexed. -/
def renderResult (result : Json) : List Event :=
  [.write "Query Response",
   .write ("**Answer:** " ++ (result.getD "answer" (.str "No answer")).display),
   .write "Retrieved Documents"] ++
  renderDocs 1 (result.getD "retrieved_documents" (.arr [])).asArr

/-- Rendering of one history entry: `entry.get(..., 'N/A')` for
`timestamp`, `query`, `answer`, then the `"---"` divider. -/
def renderHistoryEntry (entry : Json) : List Event :=
  [.write ("**Timestamp:** " ++ (entry.getD "timestamp" (.str "N/A")).display),
   .write ("**Query:** " ++ (entry.getD "query" (.str "N/A")).display),
   .write ("**Answer:** " ++ (entry.getD "answer" (.str "N/A")).display),
   .write "---"]

/-- Rendering of a truthy history response. -/
def renderHistory (history : Json) : List Event :=
  .write "Conversation History" ::
    (history.asArr.map renderHistoryEntry).flatten

/-! ## `main()`: one Streamlit script run, and sessions -/

/-- The widget state visible to one script run: the sidebar inputs, the
two buttons (at most one of which is pressed in a real Streamlit rerun —
the model does not assume this), and the main-page inputs. -/
structure WidgetInput where
  base_url : String
  temperature : Rat
  k : Nat
  chunk_overlap : Nat
  index_type : String
  rerank_k_input : Nat
  params_submitted : Bool
  manual_keywords : String
  user_query : String
  show_history : Bool
  history_limit_input : Nat
  execute_query : Bool

/-- The parameters stored on a Submit press: `rerank_k` is present iff the
index type widget reads `"rerank"`. -/
def widgetParams (w : WidgetInput) : SubmittedParams :=
  { base_url := w.base_url, temperature := w.temperature, k := w.k,
    chunk_overlap := w.chunk_overlap, index_type := w.index_type,
    rerank_k := if w.index_type == "rerank" then some w.rerank_k_input
                else none }

/-- Python `s.split(",")` on the character sequence: `""` splits to
`[""]`, and consecutive commas yield empty pieces. -/
def splitCommaAux : List Char → List Char → List (List Char)
  | [], acc => [acc.reverse]
  | c :: cs, acc =>
    if c = ',' then acc.reverse :: splitCommaAux cs []
    else splitCommaAux cs (c :: acc)

/-- Python `s.strip()`: drop leading and trailing whitespace. -/
def pyStrip (cs : List Char) : List Char :=
  ((cs.dropWhile Char.isWhitespace).reverse.dropWhile Char.isWhitespace).reverse

/-- `[kw.strip() for kw in manual_keywords.split(",") if kw.strip()]`:
an empty stripped piece is falsy and filtered out. -/
def parseKeywords (s : String) : List String :=
  (((splitCommaAux s.data []).map pyStrip).filter
    (fun cs => !cs.isEmpty)).map (fun cs => { data := cs })

/-- The sidebar block of `main`: on a Submit press the widget parameters
are stored unconditionally, then the health check runs; if its result is
truthy the parameters are posted, and if that result is truthy the success
message is shown. -/
def sidebarRun (o : Oracle) (w : WidgetInput)
    (sess : Option SubmittedParams) :
    Option SubmittedParams × List Event :=
  if w.params_submitted then
    let sp := widgetParams w
    let h := check_api_health o w.base_url
    if pyTruthyOpt h.1 then
      let s := set_api_parameters o w.base_url sp
      if pyTruthyOpt s.1 then
        (some sp, h.2 ++ s.2 ++ [.successMsg "Parameters successfully submitted!"])
      else (some sp, h.2 ++ s.2)
    else (some sp, h.2)
  else (sess, [])

/-- `if result:` — render a query result exactly when it is truthy. -/
def renderResultOpt : Option Json → List Event
  | some j => if j.truthy then renderResult j else []
  | none => []

/-- `if history:` — render a history response exactly when it is truthy. -/
def renderHistoryOpt : Option Json → List Event
  | some hj => if hj.truthy then renderHistory hj else []
  | none => []

/-- The history limit passed to the query and history stages:
the number-input value when the Show Conversation History toggle is on,
`None` otherwise. -/
def effectiveHistoryLimit (w : WidgetInput) : Option Nat :=
  if w.show_history then some w.history_limit_input else none

/-- The main-page block of `main`: present only when `submitted_params` is
in the session state; on an Execute press it registers keywords (if any),
queries, renders a truthy result, and, if the history toggle is on,
retrieves and renders the history. -/
def mainPageRun (o : Oracle) (w : WidgetInput)
    (sess : Option SubmittedParams) : List Event :=
  match sess with
  | none => [.write "Please submit parameters in the sidebar before proceeding."]
  | some sp =>
    let kws := parseKeywords w.manual_keywords
    let history_limit : Option Nat := effectiveHistoryLimit w
    if w.execute_query then
      let evK := if !kws.isEmpty then (add_manual_keywords o sp.base_url kws).2
                 else []
      let q := query_rag_api o sp.base_url w.user_query kws history_limit
      let evR := renderResultOpt q.1
      let evH := if w.show_history then
                   let hist := get_conversation_history o sp.base_url history_limit
                   hist.2 ++ renderHistoryOpt hist.1
                 else []
      .write "Query RAG API" :: (evK ++ q.2 ++ evR ++ evH)
    else [.write "Query RAG API"]

/-- One execution of `main()` over the current widget and session state:
title, sidebar block, then main-page block against the updated session
state. -/
def scriptRun (o : Oracle) (w : WidgetInput)
    (sess : Option SubmittedParams) :
    Option SubmittedParams × List Event :=
  let sb := sidebarRun o w sess
  (sb.1, .write "Gemini RAG API Client" :: (sb.2 ++ mainPageRun o w sb.1))

/-- One step of a session: run the script on the current session state and
append its events. -/
def sessionStep (o : Oracle) (acc : Option SubmittedParams × List Event)
    (w : WidgetInput) : Option SubmittedParams × List Event :=
  let r := scriptRun o w acc.1
  (r.1, acc.2 ++ r.2)

/-- A session: a sequence of script runs threading the session state,
starting from an empty session.  The event trace concatenates the runs'
traces in order. -/
def session (o : Oracle) (runs : List WidgetInput) :
    Option SubmittedParams × List Event :=
  runs.foldl (sessionStep o) (none, [])

/-- All network calls of a session, in order. -/
def sessionCalls (o : Oracle) (runs : List WidgetInput) : List Request :=
  callsOf (session o runs).2

/-- Invariant: either no call has been made yet (and no parameters are
stored), or the very first call of the session was a health check. -/
def HealthLed (acc : Option SubmittedParams × List Event) : Prop :=
  (acc.1 = none ∧ callsOf acc.2 = []) ∨
    ∃ b rest, callsOf acc.2 = healthReq b :: rest

/-- The object has no binding for `key` (a missing response field). -/
def lacksKey (fs : List (String × Json)) (key : String) : Prop :=
  fs.find? (fun p => p.1 == key) = none

/-! ## Concrete fixtures used by witnesses and counterexamples -/

/-- A service that answers every request with a truthy JSON object. -/
def oGood : Oracle := fun r =>
  match r.ep with
  | .health => .success (.obj [("status", .str "ok")])
  | _ => .success (.obj [("ok", .bool true)])

/-- A service whose health endpoint is unreachable; every other endpoint
answers with a truthy JSON object. -/
def oFailHealth : Oracle := fun r =>
  match r.ep with
  | .health => .failure .networkError
  | _ => .success (.obj [("ok", .bool true)])

/-- A service whose set-parameters endpoint times out; every other
endpoint answers with a truthy JSON object. -/
def oFailSet : Oracle := fun r =>
  match r.ep with
  | .setParameters => .failure .timeoutError
  | .health => .success (.obj [("status", .str "ok")])
  | _ => .success (.obj [("ok", .bool true)])

/-- A service where every request times out. -/
def oAllTimeout : Oracle := fun _ => .failure .timeoutError

/-- A service whose health endpoint returns HTTP 200 with the empty JSON
object (a non-None but Python-falsy result) and whose other endpoints
answer with truthy objects. -/
def oFalsyHealth : Oracle := fun r =>
  match r.ep with
  | .health => .success (.obj [])
  | _ => .success (.obj [("ok", .bool true)])

/-- A service whose health endpoint answers a truthy object but whose
set-parameters endpoint returns HTTP 200 with the empty JSON object
(non-None, falsy). -/
def oFalsySet : Oracle := fun r =>
  match r.ep with
  | .health => .success (.obj [("status", .str "ok")])
  | .setParameters => .success (.obj [])
  | _ => .success (.obj [("ok", .bool true)])

/-- A Submit Parameters press with simple widget values. -/
def wSubmit : WidgetInput :=
  { base_url := "http://api", temperature := 1, k := 5, chunk_overlap := 10,
    index_type := "basic", rerank_k_input := 5, params_submitted := true,
    manual_keywords := "", user_query := "hi", show_history := false,
    history_limit_input := 1, execute_query := false }

/-- An Execute Query press (no keywords, history toggle off). -/
def wExec : WidgetInput :=
  { wSubmit with
    params_submitted := false
    execute_query := true }

/-- An Execute Query press with manual keywords and the history toggle on. -/
def wExecFull : WidgetInput :=
  { wSubmit with
    params_submitted := false
    execute_query := true
    manual_keywords := "alpha, beta"
    show_history := true
    history_limit_input := 3 }

/-- A query response whose single retrieved document has a `source` but no
`content_preview` field. -/
def R6 : Json :=
  .obj [("answer", .str "42"),
        ("retrieved_documents", .arr [.obj [("source", .str "doc1")]])]

/-! ## Trace lemmas -/

theorem callsOf_append (a b : List Event) :
    callsOf (a ++ b) = callsOf a ++ callsOf b := by
  simp [callsOf]

theorem errorCount_append (a b : List Event) :
    errorCount (a ++ b) = errorCount a + errorCount b := by
  simp [errorCount, List.countP_append]

theorem failedCallCount_append (o : Oracle) (a b : List Event) :
    failedCallCount o (a ++ b) = failedCallCount o a + failedCallCount o b := by
  simp [failedCallCount, callsOf_append, List.countP_append]

theorem check_api_health_calls (o : Oracle) (b : String) :
    callsOf (check_api_health o b).2 = [healthReq b] := by
  unfold check_api_health
  cases o (healthReq b) <;> simp [callsOf]

theorem set_api_parameters_calls (o : Oracle) (b : String) (p : SubmittedParams) :
    callsOf (set_api_parameters o b p).2 = [setParamsReq b p] := by
  unfold set_api_parameters
  cases o (setParamsReq b p) <;> simp [callsOf]

theorem add_manual_keywords_calls (o : Oracle) (b : String) (ks : List String) :
    callsOf (add_manual_keywords o b ks).2 =
      if ks.isEmpty then [] else [addKeywordsReq b ks] := by
  unfold add_manual_keywords
  split
  · simp [callsOf]
  · cases o (addKeywordsReq b ks) <;> simp [callsOf]

theorem query_rag_api_calls (o : Oracle) (b q : String) (mk : List String)
    (hl : Option Nat) :
    callsOf (query_rag_api o b q mk hl).2 = [queryReq b q hl] := by
  unfold query_rag_api
  cases o (queryReq b q hl) <;> simp [callsOf]

theorem get_conversation_history_calls (o : Oracle) (b : String)
    (hl : Option Nat) :
    callsOf (get_conversation_history o b hl).2 =
      if natOptTruthy hl then [historyReq b (hl.getD 0)] else [] := by
  unfold get_conversation_history
  split
  · simp_all [callsOf]
  · cases o (historyReq b (hl.getD 0)) <;> simp_all [callsOf]

theorem renderDoc_calls (i : Nat) (d : Json) : callsOf (renderDoc i d) = [] :=
  rfl

theorem renderDocs_calls (ds : List Json) :
    ∀ i, callsOf (renderDocs i ds) = [] := by
  induction ds with
  | nil => intro i; rfl
  | cons d ds ih =>
    intro i
    rw [renderDocs, callsOf_append, renderDoc_calls, ih]
    rfl

theorem renderResult_calls (r : Json) : callsOf (renderResult r) = [] := by
  rw [renderResult, callsOf_append, renderDocs_calls]
  rfl

theorem renderHistoryEntry_calls (e : Json) :
    callsOf (renderHistoryEntry e) = [] :=
  rfl

theorem callsOf_entries_flatten (es : List Json) :
    callsOf (es.map renderHistoryEntry).flatten = [] := by
  induction es with
  | nil => rfl
  | cons e es ih =>
    rw [List.map_cons, List.flatten_cons, callsOf_append,
      renderHistoryEntry_calls, ih]
    rfl

theorem renderHistory_calls (h : Json) : callsOf (renderHistory h) = [] := by
  show callsOf (h.asArr.map renderHistoryEntry).flatten = []
  exact callsOf_entries_flatten h.asArr

/-! ## Error-message accounting per stage -/

theorem check_api_health_errs (o : Oracle) (b : String) :
    errorCount (check_api_health o b).2 =
      failedCallCount o (check_api_health o b).2 := by
  unfold check_api_health
  cases h : o (healthReq b) <;>
    simp [errorCount, failedCallCount, callsOf, List.countP_cons, h]

theorem set_api_parameters_errs (o : Oracle) (b : String) (p : SubmittedParams) :
    errorCount (set_api_parameters o b p).2 =
      failedCallCount o (set_api_parameters o b p).2 := by
  unfold set_api_parameters
  cases h : o (setParamsReq b p) <;>
    simp [errorCount, failedCallCount, callsOf, List.countP_cons, h]

theorem add_manual_keywords_errs (o : Oracle) (b : String) (ks : List String) :
    errorCount (add_manual_keywords o b ks).2 =
      failedCallCount o (add_manual_keywords o b ks).2 := by
  unfold add_manual_keywords
  split
  · rfl
  · cases h : o (addKeywordsReq b ks) <;>
      simp [errorCount, failedCallCount, callsOf, List.countP_cons, h]

theorem query_rag_api_errs (o : Oracle) (b q : String) (mk : List String)
    (hl : Option Nat) :
    errorCount (query_rag_api o b q mk hl).2 =
      failedCallCount o (query_rag_api o b q mk hl).2 := by
  unfold query_rag_api
  cases h : o (queryReq b q hl) <;>
    simp [errorCount, failedCallCount, callsOf, List.countP_cons, h]

theorem get_conversation_history_errs (o : Oracle) (b : String)
    (hl : Option Nat) :
    errorCount (get_conversation_history o b hl).2 =
      failedCallCount o (get_conversation_history o b hl).2 := by
  unfold get_conversation_history
  split
  · rfl
  · cases h : o (historyReq b (hl.getD 0)) <;>
      simp [errorCount, failedCallCount, callsOf, List.countP_cons, h]

theorem renderDocs_errs (ds : List Json) :
    ∀ i, errorCount (renderDocs i ds) = 0 := by
  induction ds with
  | nil => intro i; rfl
  | cons d ds ih =>
    intro i
    rw [renderDocs, errorCount_append, ih]
    rfl

theorem renderResult_errs (r : Json) : errorCount (renderResult r) = 0 := by
  rw [renderResult, errorCount_append, renderDocs_errs]
  rfl

theorem errorCount_entries_flatten (es : List Json) :
    errorCount (es.map renderHistoryEntry).flatten = 0 := by
  induction es with
  | nil => rfl
  | cons e es ih =>
    rw [List.map_cons, List.flatten_cons, errorCount_append, ih]
    rfl

theorem renderHistory_errs (h : Json) : errorCount (renderHistory h) = 0 := by
  show errorCount (h.asArr.map renderHistoryEntry).flatten = 0
  exact errorCount_entries_flatten h.asArr

/-! ## Structure of the sidebar- and main-page blocks -/

theorem sidebarRun_not_submitted (o : Oracle) (w : WidgetInput)
    (sess : Option SubmittedParams) (h : w.params_submitted = false) :
    sidebarRun o w sess = (sess, []) := by
  unfold sidebarRun
  rw [h]
  rfl

theorem sidebarRun_submitted_state (o : Oracle) (w : WidgetInput)
    (sess : Option SubmittedParams) (h : w.params_submitted = true) :
    (sidebarRun o w sess).1 = some (widgetParams w) := by
  unfold sidebarRun
  rw [h]
  simp only [if_true]
  split <;> [skip; rfl]
  split <;> rfl

theorem sidebarRun_submitted_calls (o : Oracle) (w : WidgetInput)
    (sess : Option SubmittedParams) (h : w.params_submitted = true) :
    callsOf (sidebarRun o w sess).2 =
      healthReq w.base_url ::
        (if pyTruthyOpt (check_api_health o w.base_url).1 then
          [setParamsReq w.base_url (widgetParams w)]
        else []) := by
  unfold sidebarRun
  rw [h]
  simp only [if_true]
  split
  · split
    · rw [callsOf_append, callsOf_append, check_api_health_calls,
        set_api_parameters_calls]
      rfl
    · rw [callsOf_append, check_api_health_calls, set_api_parameters_calls]
      rfl
  · rw [check_api_health_calls]

theorem sidebarRun_errs (o : Oracle) (w : WidgetInput)
    (sess : Option SubmittedParams) :
    errorCount (sidebarRun o w sess).2 =
      failedCallCount o (sidebarRun o w sess).2 := by
  unfold sidebarRun
  split
  · dsimp only
    split
    · split
      · rw [errorCount_append, errorCount_append, failedCallCount_append,
          failedCallCount_append, check_api_health_errs, set_api_parameters_errs]
        rfl
      · rw [errorCount_append, failedCallCount_append, check_api_health_errs,
          set_api_parameters_errs]
    · exact check_api_health_errs o w.base_url
  · rfl

theorem callsOf_write_cons (s : String) (evs : List Event) :
    callsOf (Event.write s :: evs) = callsOf evs :=
  rfl

theorem errorCount_write_cons (s : String) (evs : List Event) :
    errorCount (Event.write s :: evs) = errorCount evs :=
  rfl

theorem failedCallCount_write_cons (o : Oracle) (s : String)
    (evs : List Event) :
    failedCallCount o (Event.write s :: evs) = failedCallCount o evs :=
  rfl

theorem renderResultOpt_calls (x : Option Json) :
    callsOf (renderResultOpt x) = [] := by
  cases x with
  | none => rfl
  | some j =>
    rw [renderResultOpt]
    split
    · exact renderResult_calls j
    · rfl

theorem renderResultOpt_errs (x : Option Json) :
    errorCount (renderResultOpt x) = 0 := by
  cases x with
  | none => rfl
  | some j =>
    rw [renderResultOpt]
    split
    · exact renderResult_errs j
    · rfl

theorem renderHistoryOpt_calls (x : Option Json) :
    callsOf (renderHistoryOpt x) = [] := by
  cases x with
  | none => rfl
  | some j =>
    rw [renderHistoryOpt]
    split
    · exact renderHistory_calls j
    · rfl

theorem renderHistoryOpt_errs (x : Option Json) :
    errorCount (renderHistoryOpt x) = 0 := by
  cases x with
  | none => rfl
  | some j =>
    rw [renderHistoryOpt]
    split
    · exact renderHistory_errs j
    · rfl

theorem mainPageRun_none_calls (o : Oracle) (w : WidgetInput) :
    callsOf (mainPageRun o w none) = [] :=
  rfl

theorem mainPageRun_no_exec_calls (o : Oracle) (w : WidgetInput)
    (sess : Option SubmittedParams) (h : w.execute_query = false) :
    callsOf (mainPageRun o w sess) = [] := by
  unfold mainPageRun
  match sess with
  | none => rfl
  | some sp =>
    dsimp only
    rw [h]
    rfl

/-- The calls of an Execute Query run: optional keyword registration, the
query, and (iff the toggle is on and the limit truthy) history retrieval. -/
theorem mainPageRun_exec_calls (o : Oracle) (w : WidgetInput)
    (sp : SubmittedParams) (h : w.execute_query = true) :
    callsOf (mainPageRun o w (some sp)) =
      (if (parseKeywords w.manual_keywords).isEmpty then []
       else [addKeywordsReq sp.base_url (parseKeywords w.manual_keywords)]) ++
      queryReq sp.base_url w.user_query (effectiveHistoryLimit w) ::
      (if w.show_history then
        (if natOptTruthy (effectiveHistoryLimit w) then
          [historyReq sp.base_url ((effectiveHistoryLimit w).getD 0)]
        else [])
      else []) := by
  unfold mainPageRun
  dsimp only
  rw [h]
  simp only [if_true]
  rw [callsOf_write_cons]
  cases hkw : (parseKeywords w.manual_keywords).isEmpty <;>
    cases hsh : w.show_history <;>
      simp [hkw, hsh, callsOf_append, add_manual_keywords_calls,
        get_conversation_history_calls, renderHistoryOpt_calls,
        query_rag_api_calls, renderResultOpt_calls]

theorem failedCallCount_of_no_calls (o : Oracle) (evs : List Event)
    (h : callsOf evs = []) : failedCallCount o evs = 0 := by
  unfold failedCallCount
  rw [h]
  rfl

theorem renderResultOpt_failed (o : Oracle) (x : Option Json) :
    failedCallCount o (renderResultOpt x) = 0 :=
  failedCallCount_of_no_calls o _ (renderResultOpt_calls x)

theorem renderHistoryOpt_failed (o : Oracle) (x : Option Json) :
    failedCallCount o (renderHistoryOpt x) = 0 :=
  failedCallCount_of_no_calls o _ (renderHistoryOpt_calls x)

theorem mainPageRun_errs (o : Oracle) (w : WidgetInput)
    (sess : Option SubmittedParams) :
    errorCount (mainPageRun o w sess) =
      failedCallCount o (mainPageRun o w sess) := by
  match sess with
  | none => rfl
  | some sp =>
    unfold mainPageRun
    dsimp only
    cases hex : w.execute_query
    · rfl
    · simp only [if_true]
      rw [errorCount_write_cons, failedCallCount_write_cons]
      cases hkw : (parseKeywords w.manual_keywords).isEmpty <;>
        cases hsh : w.show_history <;>
          simp [hkw, hsh, errorCount_append, failedCallCount_append,
            add_manual_keywords_errs, query_rag_api_errs,
            get_conversation_history_errs, renderResultOpt_errs,
            renderHistoryOpt_errs, renderResultOpt_failed,
            renderHistoryOpt_failed]

/-! ## Script-run level facts -/

theorem scriptRun_state (o : Oracle) (w : WidgetInput)
    (sess : Option SubmittedParams) :
    (scriptRun o w sess).1 = (sidebarRun o w sess).1 :=
  rfl

theorem scriptRun_calls (o : Oracle) (w : WidgetInput)
    (sess : Option SubmittedParams) :
    callsOf (scriptRun o w sess).2 =
      callsOf (sidebarRun o w sess).2 ++
        callsOf (mainPageRun o w (sidebarRun o w sess).1) := by
  unfold scriptRun
  dsimp only
  rw [callsOf_write_cons, callsOf_append]

theorem scriptRun_errs (o : Oracle) (w : WidgetInput)
    (sess : Option SubmittedParams) :
    errorCount (scriptRun o w sess).2 =
      failedCallCount o (scriptRun o w sess).2 := by
  unfold scriptRun
  dsimp only
  rw [errorCount_write_cons, failedCallCount_write_cons, errorCount_append,
    failedCallCount_append, sidebarRun_errs, mainPageRun_errs]

/-- Every sidebar call addresses `/health` or `/set-parameters`. -/
theorem sidebarRun_calls_eps (o : Oracle) (w : WidgetInput)
    (sess : Option SubmittedParams) :
    ∀ c ∈ callsOf (sidebarRun o w sess).2,
      c.ep = .health ∨ c.ep = .setParameters := by
  intro c hc
  cases hsub : w.params_submitted
  · rw [sidebarRun_not_submitted o w sess hsub] at hc
    cases hc
  · rw [sidebarRun_submitted_calls o w sess hsub] at hc
    cases hc with
    | head => exact Or.inl rfl
    | tail _ h =>
      split at h
      · cases h with
        | head => exact Or.inr rfl
        | tail _ h => cases h
      · cases h

/-- Every main-page call addresses `/add-keywords`, `/query-with-details`
or `/conversation-history`. -/
theorem mainPageRun_calls_eps (o : Oracle) (w : WidgetInput)
    (sess : Option SubmittedParams) :
    ∀ c ∈ callsOf (mainPageRun o w sess),
      c.ep = .addKeywords ∨ c.ep = .queryWithDetails ∨
        c.ep = .conversationHistory := by
  intro c hc
  match sess with
  | none => rw [mainPageRun_none_calls] at hc; cases hc
  | some sp =>
    cases hex : w.execute_query
    · rw [mainPageRun_no_exec_calls o w _ hex] at hc
      cases hc
    · rw [mainPageRun_exec_calls o w sp hex] at hc
      rcases List.mem_append.mp hc with h | h
      · split at h
        · cases h
        · cases h with
          | head => exact Or.inl rfl
          | tail _ h => cases h
      · cases h with
        | head => exact Or.inr (Or.inl rfl)
        | tail _ h =>
          split at h
          · split at h
            · cases h with
              | head => exact Or.inr (Or.inr rfl)
              | tail _ h => cases h
            · cases h
          · cases h

/-! ## Session level facts -/

theorem sessionStep_errs (o : Oracle) (acc : Option SubmittedParams × List Event)
    (w : WidgetInput) (h : errorCount acc.2 = failedCallCount o acc.2) :
    errorCount (sessionStep o acc w).2 =
      failedCallCount o (sessionStep o acc w).2 := by
  unfold sessionStep
  dsimp only
  rw [errorCount_append, failedCallCount_append, h, scriptRun_errs]

theorem session_errs_aux (o : Oracle) :
    ∀ (runs : List WidgetInput) (acc : Option SubmittedParams × List Event),
      errorCount acc.2 = failedCallCount o acc.2 →
      errorCount (runs.foldl (sessionStep o) acc).2 =
        failedCallCount o (runs.foldl (sessionStep o) acc).2 := by
  intro runs
  induction runs with
  | nil => intro acc h; exact h
  | cons w runs ih =>
    intro acc h
    rw [List.foldl_cons]
    exact ih _ (sessionStep_errs o acc w h)

theorem sessionStep_healthLed (o : Oracle)
    (acc : Option SubmittedParams × List Event) (w : WidgetInput)
    (h : HealthLed acc) : HealthLed (sessionStep o acc w) := by
  unfold sessionStep
  dsimp only
  rcases h with ⟨hs, hc⟩ | ⟨b, rest, hc⟩
  · cases hsub : w.params_submitted
    · left
      constructor
      · rw [scriptRun_state, hs, sidebarRun_not_submitted o w none hsub]
      · rw [callsOf_append, hc, scriptRun_calls, hs,
          sidebarRun_not_submitted o w none hsub]
        rfl
    · right
      refine ⟨w.base_url, ?_, ?_⟩
      · exact (if pyTruthyOpt (check_api_health o w.base_url).1 then
          [setParamsReq w.base_url (widgetParams w)] else []) ++
          callsOf (mainPageRun o w (sidebarRun o w acc.1).1)
      · rw [callsOf_append, hc, scriptRun_calls,
          sidebarRun_submitted_calls o w acc.1 hsub]
        rfl
  · right
    exact ⟨b, rest ++ callsOf (scriptRun o w acc.1).2,
      by rw [callsOf_append, hc, List.cons_append]⟩

theorem session_healthLed_aux (o : Oracle) :
    ∀ (runs : List WidgetInput) (acc : Option SubmittedParams × List Event),
      HealthLed acc → HealthLed (runs.foldl (sessionStep o) acc) := by
  intro runs
  induction runs with
  | nil => intro acc h; exact h
  | cons w runs ih =>
    intro acc h
    rw [List.foldl_cons]
    exact ih _ (sessionStep_healthLed o acc w h)

theorem session_healthLed (o : Oracle) (runs : List WidgetInput) :
    HealthLed (session o runs) :=
  session_healthLed_aux o runs (none, []) (Or.inl ⟨rfl, rfl⟩)

/-! ## Success-message accounting -/

theorem successCount_append (a b : List Event) :
    successCount (a ++ b) = successCount a + successCount b := by
  simp [successCount, List.countP_append]

theorem successCount_write_cons (s : String) (evs : List Event) :
    successCount (Event.write s :: evs) = successCount evs :=
  rfl

theorem check_api_health_succ0 (o : Oracle) (b : String) :
    successCount (check_api_health o b).2 = 0 := by
  unfold check_api_health
  cases o (healthReq b) <;> rfl

theorem set_api_parameters_succ0 (o : Oracle) (b : String)
    (p : SubmittedParams) :
    successCount (set_api_parameters o b p).2 = 0 := by
  unfold set_api_parameters
  cases o (setParamsReq b p) <;> rfl

theorem add_manual_keywords_succ0 (o : Oracle) (b : String)
    (ks : List String) :
    successCount (add_manual_keywords o b ks).2 = 0 := by
  unfold add_manual_keywords
  split
  · rfl
  · cases o (addKeywordsReq b ks) <;> rfl

theorem query_rag_api_succ0 (o : Oracle) (b q : String) (mk : List String)
    (hl : Option Nat) :
    successCount (query_rag_api o b q mk hl).2 = 0 := by
  unfold query_rag_api
  cases o (queryReq b q hl) <;> rfl

theorem get_conversation_history_succ0 (o : Oracle) (b : String)
    (hl : Option Nat) :
    successCount (get_conversation_history o b hl).2 = 0 := by
  unfold get_conversation_history
  split
  · rfl
  · cases o (historyReq b (hl.getD 0)) <;> rfl

theorem renderDocs_succ0 (ds : List Json) :
    ∀ i, successCount (renderDocs i ds) = 0 := by
  induction ds with
  | nil => intro i; rfl
  | cons d ds ih =>
    intro i
    rw [renderDocs, successCount_append, ih]
    rfl

theorem renderResult_succ0 (r : Json) : successCount (renderResult r) = 0 := by
  rw [renderResult, successCount_append, renderDocs_succ0]
  rfl

theorem successCount_entries_flatten (es : List Json) :
    successCount (es.map renderHistoryEntry).flatten = 0 := by
  induction es with
  | nil => rfl
  | cons e es ih =>
    rw [List.map_cons, List.flatten_cons, successCount_append, ih]
    rfl

theorem renderHistory_succ0 (h : Json) : successCount (renderHistory h) = 0 := by
  show successCount (h.asArr.map renderHistoryEntry).flatten = 0
  exact successCount_entries_flatten h.asArr

theorem renderResultOpt_succ0 (x : Option Json) :
    successCount (renderResultOpt x) = 0 := by
  cases x with
  | none => rfl
  | some j =>
    rw [renderResultOpt]
    split
    · exact renderResult_succ0 j
    · rfl

theorem renderHistoryOpt_succ0 (x : Option Json) :
    successCount (renderHistoryOpt x) = 0 := by
  cases x with
  | none => rfl
  | some j =>
    rw [renderHistoryOpt]
    split
    · exact renderHistory_succ0 j
    · rfl

theorem mainPageRun_succ0 (o : Oracle) (w : WidgetInput)
    (sess : Option SubmittedParams) :
    successCount (mainPageRun o w sess) = 0 := by
  match sess with
  | none => rfl
  | some sp =>
    unfold mainPageRun
    dsimp only
    cases hex : w.execute_query
    · rfl
    · simp only [if_true]
      rw [successCount_write_cons]
      cases hkw : (parseKeywords w.manual_keywords).isEmpty <;>
        cases hsh : w.show_history <;>
          simp [hkw, hsh, successCount_append, add_manual_keywords_succ0,
            query_rag_api_succ0, get_conversation_history_succ0,
            renderResultOpt_succ0, renderHistoryOpt_succ0]

/-- In a Submit Parameters run, the success message is emitted exactly
when the health check result and the set-parameters result are both
Python-truthy. -/
theorem sidebarRun_success (o : Oracle) (w : WidgetInput)
    (sess : Option SubmittedParams) (hsub : w.params_submitted = true) :
    successCount (sidebarRun o w sess).2 =
      (if pyTruthyOpt (check_api_health o w.base_url).1 &&
          pyTruthyOpt (set_api_parameters o w.base_url (widgetParams w)).1
       then 1 else 0) := by
  unfold sidebarRun
  rw [hsub]
  simp only [if_true]
  split
  · rename_i h1
    split
    · rename_i h2
      rw [successCount_append, successCount_append, check_api_health_succ0,
        set_api_parameters_succ0, h1, h2]
      rfl
    · rename_i h2
      rw [successCount_append, check_api_health_succ0,
        set_api_parameters_succ0, h1]
      simp [h2]
  · rename_i h1
    rw [check_api_health_succ0]
    simp [h1]

theorem scriptRun_success (o : Oracle) (w : WidgetInput)
    (sess : Option SubmittedParams) (hsub : w.params_submitted = true) :
    successCount (scriptRun o w sess).2 =
      (if pyTruthyOpt (check_api_health o w.base_url).1 &&
          pyTruthyOpt (set_api_parameters o w.base_url (widgetParams w)).1
       then 1 else 0) := by
  unfold scriptRun
  dsimp only
  rw [successCount_write_cons, successCount_append, mainPageRun_succ0,
    sidebarRun_success o w sess hsub]
  exact Nat.add_zero _

/-! ## Refined main-page call lemmas -/

theorem mainPageRun_no_add_call (o : Oracle) (w : WidgetInput)
    (sess : Option SubmittedParams)
    (hkw : parseKeywords w.manual_keywords = []) :
    ∀ c ∈ callsOf (mainPageRun o w sess), c.ep ≠ .addKeywords := by
  intro c hc
  match sess with
  | none => rw [mainPageRun_none_calls] at hc; cases hc
  | some sp =>
    cases hex : w.execute_query
    · rw [mainPageRun_no_exec_calls o w _ hex] at hc
      cases hc
    · rw [mainPageRun_exec_calls o w sp hex, hkw] at hc
      simp only [List.isEmpty_nil, if_true, List.nil_append] at hc
      cases hc with
      | head => intro h; cases h
      | tail _ h =>
        split at h
        · split at h
          · cases h with
            | head => intro h; cases h
            | tail _ h => cases h
          · cases h
        · cases h

theorem getD_of_lacksKey (fs : List (String × Json)) (key : String)
    (d : Json) (h : lacksKey fs key) : Json.getD (.obj fs) key d = d := by
  have h' : fs.find? (fun p => p.1 == key) = none := h
  show (match fs.find? (fun p => p.1 == key) with
        | some p => p.2
        | none => d) = d
  rw [h']

/-- The document rendered at list position `k` (0-based) carries the
1-based label `i + k` when enumeration starts at `i`. -/
theorem renderDocs_mem (ds : List Json) :
    ∀ i k, k < ds.length →
      Event.write ("**Document " ++ toString (i + k) ++ ":**") ∈
        renderDocs i ds := by
  induction ds with
  | nil => intro i k hk; exact absurd hk (Nat.not_lt_zero k)
  | cons d ds ih =>
    intro i k hk
    rw [renderDocs]
    cases k with
    | zero =>
      apply List.mem_append_left
      rw [Nat.add_zero]
      exact List.Mem.head _
    | succ k =>
      have hik : i + (k + 1) = (i + 1) + k := by omega
      rw [hik]
      exact List.mem_append_right _ (ih (i + 1) k (Nat.lt_of_succ_lt_succ hk))

theorem mainPageRun_no_history_call (o : Oracle) (w : WidgetInput)
    (sess : Option SubmittedParams)
    (hfalsy : natOptTruthy (effectiveHistoryLimit w) = false) :
    ∀ c ∈ callsOf (mainPageRun o w sess), c.ep ≠ .conversationHistory := by
  intro c hc
  match sess with
  | none => rw [mainPageRun_none_calls] at hc; cases hc
  | some sp =>
    cases hex : w.execute_query
    · rw [mainPageRun_no_exec_calls o w _ hex] at hc
      cases hc
    · rw [mainPageRun_exec_calls o w sp hex] at hc
      simp only [hfalsy, Bool.false_eq_true, if_false, if_neg] at hc
      rcases List.mem_append.mp hc with h | h
      · split at h
        · cases h
        · cases h with
          | head => intro h; cases h
          | tail _ h => cases h
      · cases h with
        | head => intro h; cases h
        | tail _ h =>
          split at h <;> cases h

/-! ## Claims -/

/-- Claim C1, counterexample: when every request times out, the
set-parameters stage still records exactly one call, and that single call
carries timeout 240 — there is no first attempt with timeout 60 and no
retry. -/
theorem set_parameters_timeout_no_retry :
    oAllTimeout (setParamsReq "http://api" (widgetParams wSubmit)) =
      .failure .timeoutError ∧
    callsOf (set_api_parameters oAllTimeout "http://api"
        (widgetParams wSubmit)).2 =
      [setParamsReq "http://api" (widgetParams wSubmit)] ∧
    (setParamsReq "http://api" (widgetParams wSubmit)).timeout = 240 :=
  ⟨rfl, rfl, rfl⟩

/-- Claim C1 (amended): the set-parameters stage issues exactly one POST
with timeout 240 and the parameter body, on every outcome (success,
timeout, or other failure); it never retries, and no other stage issues
more than one request either. -/
theorem set_parameters_single_attempt (o : Oracle) (b q : String)
    (p : SubmittedParams) (mk ks : List String) (hl : Option Nat) :
    callsOf (set_api_parameters o b p).2 = [setParamsReq b p] ∧
    (setParamsReq b p).timeout = 240 ∧
    (callsOf (check_api_health o b).2).length ≤ 1 ∧
    (callsOf (add_manual_keywords o b ks).2).length ≤ 1 ∧
    (callsOf (query_rag_api o b q mk hl).2).length ≤ 1 ∧
    (callsOf (get_conversation_history o b hl).2).length ≤ 1 := by
  refine ⟨set_api_parameters_calls o b p, rfl, ?_, ?_, ?_, ?_⟩
  · rw [check_api_health_calls]
    simp
  · rw [add_manual_keywords_calls]
    split <;> simp
  · rw [query_rag_api_calls]
    simp
  · rw [get_conversation_history_calls]
    split <;> simp

/-- Claim C2: in every session, any network call to an endpoint other than
`/health` is strictly preceded by a health-check call — the first call a
session ever makes is the health check. -/
theorem health_check_first_call (o : Oracle) (runs : List WidgetInput)
    (c : Request) (hc : c ∈ sessionCalls o runs) (hne : c.ep ≠ .health) :
    ∃ b rest, sessionCalls o runs = healthReq b :: rest ∧ c ∈ rest := by
  rcases session_healthLed o runs with ⟨_, hnil⟩ | ⟨b, rest, hcalls⟩
  · unfold sessionCalls at hc
    rw [hnil] at hc
    cases hc
  · refine ⟨b, rest, hcalls, ?_⟩
    unfold sessionCalls at hc
    rw [hcalls] at hc
    cases hc with
    | head => exact absurd rfl hne
    | tail _ h => exact h

/-- Claim C2, witness: in a concrete session the set-parameters call is a
non-health call and indeed follows the leading health call. -/
theorem health_check_first_call_witness :
    setParamsReq "http://api" (widgetParams wSubmit) ∈
      sessionCalls oGood [wSubmit, wExec] ∧
    (setParamsReq "http://api" (widgetParams wSubmit)).ep ≠ .health ∧
    ∃ b rest, sessionCalls oGood [wSubmit, wExec] = healthReq b :: rest ∧
      setParamsReq "http://api" (widgetParams wSubmit) ∈ rest := by
  have hmem : setParamsReq "http://api" (widgetParams wSubmit) ∈
      sessionCalls oGood [wSubmit, wExec] := by
    have hs : sessionCalls oGood [wSubmit, wExec] =
        [healthReq "http://api",
         setParamsReq "http://api" (widgetParams wSubmit),
         queryReq "http://api" "hi" none] := rfl
    rw [hs]
    exact List.Mem.tail _ (List.Mem.head _)
  exact ⟨hmem, by decide,
    health_check_first_call oGood [wSubmit, wExec] _ hmem (by decide)⟩

/-- Claim C3, counterexample: the set-parameters call fails (times out)
during the submit run, its failure message is emitted, and yet the session
still issues a `/query-with-details` call in the subsequent Execute Query
run — the parameters are stored before the call and the failure does not
gate the query stage. -/
theorem set_parameters_failure_not_fatal_session :
    (set_api_parameters oFailSet "http://api" (widgetParams wSubmit)).1 =
      none ∧
    (session oFailSet [wSubmit, wExec]).2.countP
      (fun e => match e with
        | .errorMsg s => s == "Failed to set parameters: ReadTimeout"
        | _ => false) = 1 ∧
    (sessionCalls oFailSet [wSubmit, wExec]).countP
      (fun c => c.ep == .queryWithDetails) = 1 :=
  ⟨rfl, rfl, rfl⟩

/-- Claim C3 (amended): within the script run in which the set-parameters
call fails (the Submit Parameters run, where Execute Query is not
pressed), no `/query-with-details` or `/conversation-history` call occurs;
the failure does not, however, prevent those calls in a later Execute
Query run of the same session. -/
theorem set_parameters_failure_no_query_in_submit_run (o : Oracle)
    (w : WidgetInput) (sess : Option SubmittedParams) (e : ErrKind)
    (hsub : w.params_submitted = true) (hex : w.execute_query = false)
    (hfail : o (setParamsReq w.base_url (widgetParams w)) = .failure e) :
    ∀ c ∈ callsOf (scriptRun o w sess).2,
      c.ep ≠ .queryWithDetails ∧ c.ep ≠ .conversationHistory := by
  intro c hc
  rw [scriptRun_calls, mainPageRun_no_exec_calls o w _ hex,
    List.append_nil] at hc
  rcases sidebarRun_calls_eps o w sess c hc with h | h <;> rw [h] <;>
    exact ⟨by decide, by decide⟩

/-- Claim C3 (amended), witness: the concrete timing-out service and the
submit press satisfy the hypotheses, and the run's calls avoid the query
and history endpoints. -/
theorem set_parameters_failure_no_query_in_submit_run_witness :
    wSubmit.params_submitted = true ∧ wSubmit.execute_query = false ∧
    oFailSet (setParamsReq wSubmit.base_url (widgetParams wSubmit)) =
      .failure .timeoutError ∧
    ∀ c ∈ callsOf (scriptRun oFailSet wSubmit none).2,
      c.ep ≠ .queryWithDetails ∧ c.ep ≠ .conversationHistory :=
  ⟨rfl, rfl, rfl,
   set_parameters_failure_no_query_in_submit_run oFailSet wSubmit none
     .timeoutError rfl rfl rfl⟩

/-- Claim C4, counterexample: the health check fails with a network error
(one failure message is emitted), and yet the session still calls
`/add-keywords`, `/query-with-details` and `/conversation-history` in the
subsequent Execute Query run — the stored parameters survive the failed
health check. -/
theorem health_failure_not_fatal_session :
    (check_api_health oFailHealth "http://api").1 = none ∧
    (session oFailHealth [wSubmit, wExecFull]).2.countP
      (fun e => match e with
        | .errorMsg s => s == "API Health Check failed: ConnectionError"
        | _ => false) = 1 ∧
    (sessionCalls oFailHealth [wSubmit, wExecFull]).countP
      (fun c => c.ep == .addKeywords) = 1 ∧
    (sessionCalls oFailHealth [wSubmit, wExecFull]).countP
      (fun c => c.ep == .queryWithDetails) = 1 ∧
    (sessionCalls oFailHealth [wSubmit, wExecFull]).countP
      (fun c => c.ep == .conversationHistory) = 1 :=
  ⟨rfl, rfl, rfl, rfl, rfl⟩

/-- Claim C4 (amended): within the Submit Parameters run itself, a failed
health check aborts the run — its network trace is exactly the single
health call, so `/set-parameters` (and every other endpoint) is not called
in that run; a later Execute Query run is not prevented. -/
theorem health_failure_aborts_submit_run (o : Oracle) (w : WidgetInput)
    (sess : Option SubmittedParams) (e : ErrKind)
    (hsub : w.params_submitted = true) (hex : w.execute_query = false)
    (hfail : o (healthReq w.base_url) = .failure e) :
    callsOf (scriptRun o w sess).2 = [healthReq w.base_url] := by
  have h1 : (check_api_health o w.base_url).1 = none := by
    unfold check_api_health
    rw [hfail]
  rw [scriptRun_calls, sidebarRun_submitted_calls o w sess hsub,
    mainPageRun_no_exec_calls o w _ hex, h1, List.append_nil]
  rfl

/-- Claim C4 (amended), witness: with the health-refusing service and a
submit press, the run's trace is exactly the health call. -/
theorem health_failure_aborts_submit_run_witness :
    wSubmit.params_submitted = true ∧ wSubmit.execute_query = false ∧
    oFailHealth (healthReq wSubmit.base_url) = .failure .networkError ∧
    callsOf (scriptRun oFailHealth wSubmit none).2 =
      [healthReq wSubmit.base_url] :=
  ⟨rfl, rfl, rfl,
   health_failure_aborts_submit_run oFailHealth wSubmit none .networkError
     rfl rfl rfl⟩

/-- Claim C5: over any session, the number of `st.error` messages equals
the number of issued requests whose outcome is a failure — every stage
failure is converted to exactly one user-visible error message, none is
dropped, none is duplicated, and (the stage functions being total) none
propagates beyond the orchestrator. -/
theorem one_error_message_per_failed_call (o : Oracle)
    (runs : List WidgetInput) :
    errorCount (session o runs).2 = failedCallCount o (session o runs).2 := by
  unfold session
  exact session_errs_aux o runs (none, []) rfl

/-- Claim C6, counterexample: a document with a `source` but no
`content_preview` field renders with the fallback text "No preview", not
"No preview available" as the claim states. -/
theorem content_preview_fallback_is_no_preview :
    renderResult R6 =
      [.write "Query Response", .write "**Answer:** 42",
       .write "Retrieved Documents", .write "**Document 1:**",
       .write "Source: doc1", .write "Content Preview: No preview"] ∧
    (renderResult R6).countP
      (fun e => match e with
        | .write s => s == "Content Preview: No preview available"
        | _ => false) = 0 :=
  ⟨rfl, rfl⟩

/-- Claim C6 (amended): documents are rendered 1-indexed; a missing
`source` renders as "Unknown" and a missing `content_preview` as
"No preview" (not "No preview available"); a history entry renders "N/A"
for each missing field followed by the "---" divider; rendering emits no
error message. -/
theorem render_missing_field_fallbacks (i k : Nat)
    (fs gs : List (String × Json)) (ds : List Json)
    (hsrc : lacksKey fs "source") (hprev : lacksKey fs "content_preview")
    (hts : lacksKey gs "timestamp") (hq : lacksKey gs "query")
    (ha : lacksKey gs "answer") (hk : k < ds.length) :
    renderDoc i (.obj fs) =
      [.write ("**Document " ++ toString i ++ ":**"),
       .write "Source: Unknown",
       .write "Content Preview: No preview"] ∧
    renderHistoryEntry (.obj gs) =
      [.write "**Timestamp:** N/A", .write "**Query:** N/A",
       .write "**Answer:** N/A", .write "---"] ∧
    Event.write ("**Document " ++ toString (1 + k) ++ ":**") ∈
      renderDocs 1 ds ∧
    errorCount (renderResult (.obj fs)) = 0 ∧
    errorCount (renderHistory (.obj gs)) = 0 := by
  refine ⟨?_, ?_, renderDocs_mem ds 1 k hk, renderResult_errs _,
    renderHistory_errs _⟩
  · unfold renderDoc
    rw [getD_of_lacksKey fs "source" _ hsrc,
      getD_of_lacksKey fs "content_preview" _ hprev]
    rfl
  · unfold renderHistoryEntry
    rw [getD_of_lacksKey gs "timestamp" _ hts,
      getD_of_lacksKey gs "query" _ hq,
      getD_of_lacksKey gs "answer" _ ha]
    rfl

/-- Claim C6 (amended), witness: the empty object lacks every field, and
the fallbacks render as stated. -/
theorem render_missing_field_fallbacks_witness :
    lacksKey [] "source" ∧ lacksKey [] "content_preview" ∧
    lacksKey [] "timestamp" ∧ lacksKey [] "query" ∧
    lacksKey [] "answer" ∧ 0 < [Json.null].length ∧
    (renderDoc 1 (.obj []) =
      [.write ("**Document " ++ toString 1 ++ ":**"),
       .write "Source: Unknown",
       .write "Content Preview: No preview"] ∧
    renderHistoryEntry (.obj []) =
      [.write "**Timestamp:** N/A", .write "**Query:** N/A",
       .write "**Answer:** N/A", .write "---"] ∧
    Event.write ("**Document " ++ toString (1 + 0) ++ ":**") ∈
      renderDocs 1 [Json.null] ∧
    errorCount (renderResult (.obj [])) = 0 ∧
    errorCount (renderHistory (.obj [])) = 0) :=
  ⟨rfl, rfl, rfl, rfl, rfl, by decide,
   render_missing_field_fallbacks 1 0 [] [] [Json.null]
     rfl rfl rfl rfl rfl (by decide)⟩

/-- Claim C7: when the parsed keyword list is empty, no script run issues
an `/add-keywords` call, and the keyword stage itself immediately returns
`None` without any event on an empty list. -/
theorem empty_keywords_no_add_keywords_call (o : Oracle) (w : WidgetInput)
    (sess : Option SubmittedParams)
    (hkw : parseKeywords w.manual_keywords = []) :
    (∀ c ∈ callsOf (scriptRun o w sess).2, c.ep ≠ .addKeywords) ∧
    add_manual_keywords o w.base_url [] = (none, []) := by
  constructor
  · intro c hc
    rw [scriptRun_calls] at hc
    rcases List.mem_append.mp hc with h | h
    · rcases sidebarRun_calls_eps o w sess c h with h1 | h1 <;> rw [h1] <;>
        decide
    · exact mainPageRun_no_add_call o w _ hkw c h
  · rfl

/-- Claim C7, witness: an Execute Query press with an empty keyword input
parses to the empty list and issues no `/add-keywords` call. -/
theorem empty_keywords_no_add_keywords_call_witness :
    parseKeywords wExec.manual_keywords = [] ∧
    ((∀ c ∈ callsOf (scriptRun oGood wExec (some (widgetParams wSubmit))).2,
        c.ep ≠ .addKeywords) ∧
     add_manual_keywords oGood wExec.base_url [] = (none, [])) :=
  ⟨rfl, empty_keywords_no_add_keywords_call oGood wExec
    (some (widgetParams wSubmit)) rfl⟩

/-- Claim C8: when the effective history limit is falsy (toggle off, or a
zero limit), no script run issues a `/conversation-history` call —
regardless of the oracle, hence regardless of the query outcome — and the
history stage itself returns `None` without a call on any falsy limit. -/
theorem falsy_history_limit_no_history_call (o : Oracle) (w : WidgetInput)
    (sess : Option SubmittedParams)
    (hfalsy : natOptTruthy (effectiveHistoryLimit w) = false) :
    (∀ c ∈ callsOf (scriptRun o w sess).2, c.ep ≠ .conversationHistory) ∧
    (∀ b hl, natOptTruthy hl = false →
      get_conversation_history o b hl = (none, [])) := by
  constructor
  · intro c hc
    rw [scriptRun_calls] at hc
    rcases List.mem_append.mp hc with h | h
    · rcases sidebarRun_calls_eps o w sess c h with h1 | h1 <;> rw [h1] <;>
        decide
    · exact mainPageRun_no_history_call o w _ hfalsy c h
  · intro b hl h
    unfold get_conversation_history
    rw [h]
    rfl

/-- Claim C8, witness: with the history toggle off the effective limit is
`None`, and the Execute Query run issues no history call. -/
theorem falsy_history_limit_no_history_call_witness :
    natOptTruthy (effectiveHistoryLimit wExec) = false ∧
    ((∀ c ∈ callsOf (scriptRun oGood wExec (some (widgetParams wSubmit))).2,
        c.ep ≠ .conversationHistory) ∧
     (∀ b hl, natOptTruthy hl = false →
       get_conversation_history oGood b hl = (none, []))) :=
  ⟨rfl, falsy_history_limit_no_history_call oGood wExec
    (some (widgetParams wSubmit)) rfl⟩

/-- Claim C9: `query_rag_api` is oblivious to its `manual_keywords`
argument — for any two keyword lists (all else equal) the issued request
and the returned result-and-trace are identical. -/
theorem query_request_ignores_manual_keywords (o : Oracle) (b q : String)
    (mk1 mk2 : List String) (hl : Option Nat) :
    query_rag_api o b q mk1 hl = query_rag_api o b q mk2 hl :=
  rfl

/-- Claim C10, counterexample: both the health check and the
set-parameters call return successfully with non-None results (the
set-parameters response being the empty, Python-falsy, JSON object), the
set-parameters request is issued, and yet the success message is not
displayed — the gate is truthiness, not non-None-ness. -/
theorem success_message_requires_truthiness :
    (check_api_health oFalsySet "http://api").1.isSome = true ∧
    (set_api_parameters oFalsySet "http://api" (widgetParams wSubmit)).1.isSome
      = true ∧
    (sessionCalls oFalsySet [wSubmit]).countP
      (fun c => c.ep == .setParameters) = 1 ∧
    successCount (scriptRun oFalsySet wSubmit none).2 = 0 :=
  ⟨rfl, rfl, rfl, rfl⟩

/-- Claim C10 (amended): on every Submit Parameters press the widget
values are stored in the session state, even when the calls fail; the
success message is emitted exactly when the health-check result and the
set-parameters result are both Python-truthy. -/
theorem success_message_iff_truthy_results (o : Oracle) (w : WidgetInput)
    (sess : Option SubmittedParams) (hsub : w.params_submitted = true) :
    (scriptRun o w sess).1 = some (widgetParams w) ∧
    successCount (scriptRun o w sess).2 =
      (if pyTruthyOpt (check_api_health o w.base_url).1 &&
          pyTruthyOpt (set_api_parameters o w.base_url (widgetParams w)).1
       then 1 else 0) :=
  ⟨by rw [scriptRun_state]; exact sidebarRun_submitted_state o w sess hsub,
   scriptRun_success o w sess hsub⟩

/-- Claim C10 (amended), witness: a submit press against the all-success
service stores the parameters and shows the message once. -/
theorem success_message_iff_truthy_results_witness :
    wSubmit.params_submitted = true ∧
    ((scriptRun oGood wSubmit none).1 = some (widgetParams wSubmit) ∧
     successCount (scriptRun oGood wSubmit none).2 =
       (if pyTruthyOpt (check_api_health oGood wSubmit.base_url).1 &&
           pyTruthyOpt (set_api_parameters oGood wSubmit.base_url
             (widgetParams wSubmit)).1
        then 1 else 0)) :=
  ⟨rfl, success_message_iff_truthy_results oGood wSubmit none rfl⟩

end GeminiRag
